import Mathlib

/-!
# Verification of the fx_cast session routing and device-state engine

Shallow embedding of `src/ext/src/background/castManager.ts` (the session
router) and the device manager module (device registry) bundled with it.
Pure data is translated directly; the stateful singletons become explicit
state-passing functions whose side effects (messages posted on channels,
events dispatched, timers set, ports opened/closed) are returned as
explicit effect traces.
-/

/-! ## Data model -/

/-- An application descriptor inside a receiver status.  The registry
treats the applications list as opaque data, so the element type is
abstracted to `String`. -/
abbrev Application := String

/-- `ReceiverStatus` snapshot (from `../cast/sdk/types`): active-input flag,
standby flag, volume, and an optional list of running applications (the
`applications` field may be absent in an update payload). -/
structure ReceiverStatus where
  isActiveInput : Bool
  isStandBy : Bool
  volume : Int
  applications : Option (List Application)
deriving DecidableEq, Repr

/-- `ReceiverDevice` (from `../types`, modelled per §3 of the design notes:
identity `id`, mutable nullable `status`). -/
structure ReceiverDevice where
  id : String
  status : Option ReceiverStatus
deriving DecidableEq, Repr

/-- `ReceiverSelectionActionType` from `../types`. -/
inductive ReceiverSelectionActionType where
  | Cast
  | Stop
deriving DecidableEq, Repr

/-- `ReceiverSelectorMediaType` from `../types`. -/
inductive ReceiverSelectorMediaType where
  | App
  | Tab
  | Screen
  | File
deriving DecidableEq, Repr

/-- `ReceiverSelection` (from `./ReceiverSelector`): outcome of the device
pick workflow.  `filePath` is only meaningful for the `File` media type;
the session request descriptor is opaque to the router. -/
structure ReceiverSelection where
  actionType : ReceiverSelectionActionType
  mediaType : ReceiverSelectorMediaType
  receiverDevice : ReceiverDevice
  filePath : Option String
deriving DecidableEq, Repr

/-- Payload of a `Message` (`messaging.ts` fixes one payload shape per
subject; unrecognized payloads are carried opaquely as `raw`). -/
inductive MsgData where
  | empty
  | initializeCast (appId : String)
  | selectReceiver (sessionRequest : String)
  | receiverDevice (receiverDevice : ReceiverDevice)
  | receiverDeviceId (receiverDeviceId : String)
  | selection (selection : ReceiverSelection)
  | startDiscovery (shouldWatchStatus : Bool)
  | raw (payload : String)
deriving DecidableEq, Repr

/-- `Message` from `messaging.ts`: a subject string plus a payload. -/
structure Message where
  subject : String
  data : MsgData
deriving DecidableEq, Repr

/-! ## Device registry (deviceManager module) — definitions -/

namespace deviceManager

/-- The registry's `Map<string, ReceiverDevice>` as an insertion-ordered
association list with unique keys. -/
abbrev DeviceTable := List (String × ReceiverDevice)

/-- `Map.get`: first binding for the key. -/
def tblGet : DeviceTable → String → Option ReceiverDevice
  | [], _ => none
  | (k', v) :: rest, k => if k' = k then some v else tblGet rest k

/-- `Map.set`: replace the binding in place if the key is present,
otherwise append (JS `Map` keeps insertion order). -/
def tblSet : DeviceTable → String → ReceiverDevice → DeviceTable
  | [], k, v => [(k, v)]
  | (k', v') :: rest, k, v =>
      if k' = k then (k, v) :: rest else (k', v') :: tblSet rest k v

/-- `Map.delete`: remove the binding for the key. -/
def tblDelete : DeviceTable → String → DeviceTable
  | [], _ => []
  | (k', v') :: rest, k =>
      if k' = k then tblDelete rest k else (k', v') :: tblDelete rest k

/-- `Map.has`. -/
def tblHas (t : DeviceTable) (k : String) : Bool :=
  (tblGet t k).isSome

/-- `Array.from(map.values())`. -/
def tblValues (t : DeviceTable) : List ReceiverDevice :=
  t.map Prod.snd

/-- The table keys are pairwise distinct (representation invariant of a JS
`Map` as an association list). -/
def NoDupKeys (t : DeviceTable) : Prop :=
  (t.map Prod.fst).Nodup

/-- Messages the registry's `onBridgeMessage` switch recognizes, one
constructor per `case` label; `other` stands for any unrecognized subject
(the switch has no `default`, so those have no effect). -/
inductive RegistryInMessage where
  | receiverDeviceUp (deviceId : String) (deviceInfo : ReceiverDevice)
  | receiverDeviceDown (deviceId : String)
  | receiverDeviceStatusUpdated (deviceId : String) (status : ReceiverStatus)
  | receiverDeviceMediaStatusUpdated (deviceId : String)
  | other (subject : String)
deriving DecidableEq, Repr

/-- Events dispatched on the registry's event target. -/
inductive DeviceEvent where
  | up (deviceInfo : ReceiverDevice)
  | down (deviceId : String)
  | updated (deviceId : String) (status : ReceiverStatus)
deriving DecidableEq, Repr

/-- Observable side effects of the registry, in program order. -/
inductive RegistryEffect where
  | emit (event : DeviceEvent)
  | postMessage (portId : Nat) (message : Message)
  | openPort (portId : Nat)
  | disconnectPort (portId : Nat)
  | setTimeout (delayMs : Nat)
  | logError (text : String)
deriving DecidableEq, Repr

/-- Registry state: the device table plus the optional upstream port
(`bridgePort?`), identified by a numeric port id. -/
structure RegistryState where
  receiverDevices : DeviceTable
  bridgePort : Option Nat
deriving DecidableEq, Repr

/-- The in-place status mutation performed by the
`main:receiverDeviceStatusUpdated` branch of `onBridgeMessage`: when a
prior status exists, overwrite `isActiveInput`, `isStandBy`, `volume` and
replace `applications` only when the update carries one (JS truthiness: an
array, even empty, is truthy; an absent field is falsy); when no prior
status exists, assign the incoming status wholesale. -/
def mergedStatus (oldStatus : Option ReceiverStatus) (status : ReceiverStatus) :
    ReceiverStatus :=
  match oldStatus with
  | some old =>
      { isActiveInput := status.isActiveInput
        isStandBy := status.isStandBy
        volume := status.volume
        applications :=
          match status.applications with
          | some apps => some apps
          | none => old.applications }
  | none => status

/-- `onBridgeMessage`: updates the device table and returns the events
dispatched, in order. -/
def onBridgeMessage (t : DeviceTable) (message : RegistryInMessage) :
    DeviceTable × List DeviceEvent :=
  match message with
  | .receiverDeviceUp deviceId deviceInfo =>
      (tblSet t deviceId deviceInfo, [.up deviceInfo])
  | .receiverDeviceDown deviceId =>
      ((if tblHas t deviceId then tblDelete t deviceId else t),
       [.down deviceId])
  | .receiverDeviceStatusUpdated deviceId status =>
      match tblGet t deviceId with
      | none => (t, [])
      | some receiverDevice =>
          let newStatus := mergedStatus receiverDevice.status status
          (tblSet t deviceId { receiverDevice with status := some newStatus },
           [.updated deviceId newStatus])
  | .receiverDeviceMediaStatusUpdated _ => (t, [])
  | .other _ => (t, [])

/-- `onBridgeDisconnect`: emit a `receiverDeviceDown` per known device
(carrying the stored device's `id`), clear the table, and schedule the
re-initialization after 10000 ms. -/
def onBridgeDisconnect (t : DeviceTable) : DeviceTable × List RegistryEffect :=
  (([] : DeviceTable),
   (tblValues t).map
       (fun receiverDevice => RegistryEffect.emit (.down receiverDevice.id))
     ++ [RegistryEffect.setTimeout 10000])

/-- `refresh`: disconnect any existing upstream port, clear the table, open
a fresh port (`newPortId` stands for the port `bridge.connect()` returns)
and send `bridge:startDiscovery` with `shouldWatchStatus: true` on it. -/
def refresh (s : RegistryState) (newPortId : Nat) :
    RegistryState × List RegistryEffect :=
  ({ receiverDevices := [], bridgePort := some newPortId },
   (match s.bridgePort with
    | some portId => [RegistryEffect.disconnectPort portId]
    | none => [])
     ++ [RegistryEffect.openPort newPortId,
         RegistryEffect.postMessage newPortId
           { subject := "bridge:startDiscovery", data := .startDiscovery true }])

/-- `stopReceiverApp`: with no upstream port, log an error and return; with
a port, send `bridge:stopCastSession` only when the device id is known. -/
def stopReceiverApp (s : RegistryState) (receiverDeviceId : String) :
    RegistryState × List RegistryEffect :=
  match s.bridgePort with
  | none =>
      (s, [RegistryEffect.logError
        "Failed to stop receiver device, no bridge connection"])
  | some portId =>
      match tblGet s.receiverDevices receiverDeviceId with
      | some receiverDevice =>
          (s, [RegistryEffect.postMessage portId
            { subject := "bridge:stopCastSession"
              data := .receiverDevice receiverDevice }])
      | none => (s, [])

/-- `getDevices`. -/
def getDevices (t : DeviceTable) : List ReceiverDevice :=
  tblValues t

/-- The event alphabet of claim C2: device-up, device-down and
device-status-updated events. -/
inductive DeviceStateEvent where
  | up (deviceId : String) (deviceInfo : ReceiverDevice)
  | down (deviceId : String)
  | statusUpdated (deviceId : String) (status : ReceiverStatus)
deriving DecidableEq, Repr

/-- The bridge message carrying a given device-state event. -/
def DeviceStateEvent.toMessage : DeviceStateEvent → RegistryInMessage
  | .up deviceId deviceInfo => .receiverDeviceUp deviceId deviceInfo
  | .down deviceId => .receiverDeviceDown deviceId
  | .statusUpdated deviceId status =>
      .receiverDeviceStatusUpdated deviceId status

/-- Replay a sequence of device-state events through the code's
`onBridgeMessage`, starting from the empty table. -/
def replayTable (events : List DeviceStateEvent) : DeviceTable :=
  events.foldl (fun t e => (onBridgeMessage t e.toMessage).1) []

/-- Modelled from the spec (§4.1 merge rule wording, for comparison with
the code's `mergedStatus`): "merge `isActiveInput`, `isStandBy`, `volume`,
and replace `applications` wholesale only if provided in the update"
(prior applications kept otherwise). -/
def specMergedStatus (prior : Option ReceiverStatus) (update : ReceiverStatus) :
    ReceiverStatus :=
  { isActiveInput := update.isActiveInput
    isStandBy := update.isStandBy
    volume := update.volume
    applications :=
      match update.applications with
      | some apps => some apps
      | none => prior.bind (fun st => st.applications) }

/-- Modelled from the spec (§4.1 table, for comparison with the code):
one step of the abstract replay over a partial map from device id to
device — up inserts/overwrites under the id, down removes, status-updated
merges for a known device and is ignored for an unknown one. -/
def specStep (known : String → Option ReceiverDevice) (e : DeviceStateEvent) :
    String → Option ReceiverDevice :=
  match e with
  | .up deviceId deviceInfo =>
      fun id => if id = deviceId then some deviceInfo else known id
  | .down deviceId =>
      fun id => if id = deviceId then none else known id
  | .statusUpdated deviceId status =>
      fun id =>
        if id = deviceId then
          match known deviceId with
          | some device =>
              some { device with
                     status := some (specMergedStatus device.status status) }
          | none => known id
        else known id

/-- Abstract replay of a device-state event sequence from the empty map. -/
def specReplay (events : List DeviceStateEvent) :
    String → Option ReceiverDevice :=
  events.foldl specStep (fun _ => none)

/-- A well-formed registry table: unique keys, each storing a device whose
`id` equals its key. -/
def WellFormedTable (t : DeviceTable) : Prop :=
  NoDupKeys t ∧ ∀ p ∈ t, (Prod.snd p).id = Prod.fst p

/-- A concrete device with no stored status, for witnesses. -/
def demoDeviceNoStatus : ReceiverDevice :=
  { id := "a", status := none }

/-- A concrete status update with no applications list, for witnesses. -/
def demoStatusNoApps : ReceiverStatus :=
  { isActiveInput := true, isStandBy := false, volume := 5
    applications := none }

/-- A second concrete device, carrying a status, for witnesses. -/
def demoDeviceWithStatus : ReceiverDevice :=
  { id := "b"
    status := some
      { isActiveInput := false, isStandBy := true, volume := 3
        applications := some ["app1"] } }

/-- A concrete two-device registry state with a live upstream port. -/
def demoRegistryState : RegistryState :=
  { receiverDevices :=
      [("a", demoDeviceNoStatus), ("b", demoDeviceWithStatus)]
    bridgePort := some 0 }

/-- A concrete registry state with a live upstream port and no devices. -/
def demoEmptyRegistryState : RegistryState :=
  { receiverDevices := [], bridgePort := some 0 }

/-- Recognizer for port-opening effects (used to count how many upstream
channels an operation opens). -/
def RegistryEffect.isOpenPort : RegistryEffect → Bool
  | .openPort _ => true
  | _ => false

end deviceManager

/-! ## Session router (castManager module) — definitions -/

/-- Embeds `const [destination] = message.subject.split(":")`: the text
before the first `:` (the whole subject when it has no `:`). -/
def subjectDestination (subject : String) : String :=
  String.mk (subject.data.takeWhile (fun c => c != ':'))

namespace castManager

/-- `CastInstance`: one live sender context, pairing a bridge-side port
with a sender-side port.  Ports are identified by numeric ids; tab and
frame ids are present only for the cross-boundary (content) channel
kind. -/
structure CastInstance where
  bridgePort : Nat
  contentPort : Nat
  contentTabId : Option Nat
  contentFrameId : Option Nat
  appId : Option String
deriving DecidableEq, Repr

/-- Observable side effects of the session router, in program order.
`executeScriptCode` is the injected snippet setting `window.selectedMedia`
and `window.selectedReceiver`; `executeScriptFile` injects a script file;
`fileSenderInit` is the direct `init` call of the media sender;
`fatalError` is a logged-and-thrown construction error. -/
inductive RouterEffect where
  | postMessage (portId : Nat) (message : Message)
  | executeScriptCode (tabId : Nat) (frameId : Option Nat)
      (selectedMedia : ReceiverSelectorMediaType)
      (selectedReceiver : ReceiverDevice)
  | executeScriptFile (tabId : Nat) (frameId : Option Nat) (file : String)
  | fileSenderInit (mediaUrl : String) (receiver : ReceiverDevice)
  | closeSelector
  | fatalError
deriving DecidableEq, Repr

/-- JS truthiness of the optional numeric `frameId` argument:
`undefined` and `0` are falsy. -/
def frameIdTruthy : Option Nat → Bool
  | none => false
  | some n => n != 0

/-- `getInstance`: first active instance at the given tab id; the frame id
is compared only when the given `frameId` is truthy, per
`if (frameId && instance.contentFrameId !== frameId) continue`. -/
def getInstance (activeInstances : List CastInstance) (tabId : Nat)
    (frameId : Option Nat) : Option CastInstance :=
  match activeInstances with
  | [] => none
  | inst :: rest =>
      if inst.contentTabId = some tabId then
        if frameIdTruthy frameId ∧ inst.contentFrameId ≠ frameId then
          getInstance rest tabId frameId
        else some inst
      else getInstance rest tabId frameId

/-- `loadSender`: activate the right sender for a receiver selection.
Does nothing without a selection or when the action is not Cast; App sends
`cast:launchApp` to the located instance (fatal error when none); Tab and
Screen inject the two content scripts; File builds a `file://` URL and
directly initializes the media sender. -/
def loadSender (activeInstances : List CastInstance) (tabId : Nat)
    (frameId : Option Nat) (selection : Option ReceiverSelection) :
    List RouterEffect :=
  match selection with
  | none => []
  | some selection =>
      if selection.actionType ≠ ReceiverSelectionActionType.Cast then []
      else
        match selection.mediaType with
        | .App =>
            match getInstance activeInstances tabId frameId with
            | none => [RouterEffect.fatalError]
            | some inst =>
                [RouterEffect.postMessage inst.contentPort
                  { subject := "cast:launchApp"
                    data := .receiverDevice selection.receiverDevice }]
        | .Tab =>
            [RouterEffect.executeScriptCode tabId frameId .Tab
               selection.receiverDevice,
             RouterEffect.executeScriptFile tabId frameId
               "cast/senders/mirroring.js"]
        | .Screen =>
            [RouterEffect.executeScriptCode tabId frameId .Screen
               selection.receiverDevice,
             RouterEffect.executeScriptFile tabId frameId
               "cast/senders/mirroring.js"]
        | .File =>
            [RouterEffect.fileSenderInit
              ("file://" ++ selection.filePath.getD "")
              selection.receiverDevice]

/-- Result of awaiting `selectorManager.getSelection`: a selection, a user
cancellation (`ok none`), or a workflow failure (`err`, the `catch`
branch). -/
inductive SelectionOutcome where
  | ok (selection : Option ReceiverSelection)
  | err
deriving DecidableEq, Repr

/-- External collaborators consulted by `handleContentMessage`: the
selection workflow's outcome, the selector's open flag, the
`receiverSelectorWaitForConnection` option, and the Device Registry's
current device list. -/
structure RouterEnv where
  getSelection : SelectionOutcome
  selectorIsOpen : Bool
  receiverSelectorWaitForConnection : Bool
  devices : List ReceiverDevice
deriving DecidableEq, Repr

/-- The `switch (message.subject)` local-handling step of
`handleContentMessage`: returns the possibly-updated instance and the
effects of the matched branch (none for subjects outside the three
cases). -/
def localHandle (env : RouterEnv) (activeInstances : List CastInstance)
    (inst : CastInstance) (message : Message) :
    CastInstance × List RouterEffect :=
  if message.subject = "main:initializeCast" then
    match message.data with
    | .initializeCast appId =>
        ({ inst with appId := some appId },
         env.devices.map (fun receiverDevice =>
           RouterEffect.postMessage inst.contentPort
             { subject := "cast:receiverDeviceUp"
               data := .receiverDevice receiverDevice }))
    | _ => (inst, [])
  else if message.subject = "main:selectReceiver" then
    (inst,
     match inst.contentTabId, inst.contentFrameId with
     | some tabId, some frameId =>
         (match env.getSelection with
          | .err =>
              [RouterEffect.postMessage inst.contentPort
                { subject := "cast:selectReceiver/cancelled", data := .empty }]
          | .ok none =>
              [RouterEffect.postMessage inst.contentPort
                { subject := "cast:selectReceiver/cancelled", data := .empty }]
          | .ok (some selection) =>
              match selection.actionType with
              | .Cast =>
                  if selection.mediaType ≠ ReceiverSelectorMediaType.App then
                    RouterEffect.postMessage inst.contentPort
                        { subject := "cast:selectReceiver/cancelled"
                          data := .empty }
                      :: loadSender activeInstances tabId (some frameId)
                           (some selection)
                  else
                    [RouterEffect.postMessage inst.contentPort
                      { subject := "cast:selectReceiver/selected"
                        data := .selection selection }]
              | .Stop =>
                  [RouterEffect.postMessage inst.contentPort
                    { subject := "cast:selectReceiver/stopped"
                      data := .selection selection }])
     | _, _ => [RouterEffect.fatalError])
  else if message.subject = "main:closeReceiverSelector" then
    (inst,
     if env.selectorIsOpen && env.receiverSelectorWaitForConnection then
       [RouterEffect.closeSelector]
     else [])
  else (inst, [])

/-- `handleContentMessage`: forward the message verbatim to the instance's
bridge port when its subject's namespace prefix is `bridge`, then run the
local-handling switch — both can fire for the same message. -/
def handleContentMessage (env : RouterEnv)
    (activeInstances : List CastInstance) (inst : CastInstance)
    (message : Message) : CastInstance × List RouterEffect :=
  let destination := subjectDestination message.subject
  let localResult := localHandle env activeInstances inst message
  (localResult.1,
   (if destination = "bridge"
    then [RouterEffect.postMessage inst.bridgePort message]
    else [])
     ++ localResult.2)

/-- Router-wide mutable state for the instance-lifecycle transitions: the
`activeInstances` set (insertion order), the set of ports on which
`disconnect()` has been called, the set of ports with a message listener
attached, and a counter supplying fresh port ids for `bridge.connect()`
and new sender channels. -/
structure RouterState where
  activeInstances : List CastInstance
  disconnectedPorts : List Nat
  messageListeners : List Nat
  nextPortId : Nat
deriving DecidableEq, Repr

/-- Add a port id to a duplicate-free port set. -/
def addPort (ports : List Nat) (portId : Nat) : List Nat :=
  if portId ∈ ports then ports else ports ++ [portId]

/-- `createInstanceFromContent` for a sender carrying identity
`(tabId, frameId)`: call `bridgePort.disconnect()` on every active
instance already at that tab/frame, then register a fresh instance (fresh
bridge and content ports) with message listeners attached on both
ports. -/
def createInstanceFromContent (s : RouterState) (tabId frameId : Nat) :
    RouterState :=
  let disconnected := s.activeInstances.foldl
    (fun acc inst =>
      if inst.contentTabId = some tabId ∧ inst.contentFrameId = some frameId
      then addPort acc inst.bridgePort else acc)
    s.disconnectedPorts
  let inst : CastInstance :=
    { bridgePort := s.nextPortId
      contentPort := s.nextPortId + 1
      contentTabId := some tabId
      contentFrameId := some frameId
      appId := none }
  { activeInstances := s.activeInstances ++ [inst]
    disconnectedPorts := disconnected
    messageListeners :=
      addPort (addPort s.messageListeners inst.bridgePort) inst.contentPort
    nextPortId := s.nextPortId + 2 }

/-- `createInstanceFromBackground`: register a fresh instance with no
tab/frame identity (in-process channel kind). -/
def createInstanceFromBackground (s : RouterState) : RouterState :=
  let inst : CastInstance :=
    { bridgePort := s.nextPortId
      contentPort := s.nextPortId + 1
      contentTabId := none
      contentFrameId := none
      appId := none }
  { activeInstances := s.activeInstances ++ [inst]
    disconnectedPorts := s.disconnectedPorts
    messageListeners :=
      addPort (addPort s.messageListeners inst.bridgePort) inst.contentPort
    nextPortId := s.nextPortId + 2 }

/-- The cross-boundary teardown callback `onDisconnect`: remove both
directions' message listeners, disconnect both ports, and delete the
instance from the live set. -/
def onDisconnect (s : RouterState) (inst : CastInstance) : RouterState :=
  { activeInstances := s.activeInstances.filter (fun j => j ≠ inst)
    disconnectedPorts :=
      addPort (addPort s.disconnectedPorts inst.bridgePort) inst.contentPort
    messageListeners :=
      (s.messageListeners.filter (fun p => p ≠ inst.bridgePort)).filter
        (fun p => p ≠ inst.contentPort)
    nextPortId := s.nextPortId }

/-- The `main:initializeCast` mutation seen from the instance set:
`instance.appId = message.data.appId`. -/
def setAppId (s : RouterState) (inst : CastInstance) (appId : String) :
    RouterState :=
  { s with
    activeInstances :=
      s.activeInstances.map
        (fun j => if j = inst then { j with appId := some appId } else j) }

/-- The router state at extension startup. -/
def initialRouterState : RouterState :=
  { activeInstances := []
    disconnectedPorts := []
    messageListeners := []
    nextPortId := 0 }

/-- States reachable from startup through the instance-lifecycle
transitions. -/
inductive Reachable : RouterState → Prop where
  | init : Reachable initialRouterState
  | createContent {s : RouterState} (tabId frameId : Nat) :
      Reachable s → Reachable (createInstanceFromContent s tabId frameId)
  | createBackground {s : RouterState} :
      Reachable s → Reachable (createInstanceFromBackground s)
  | disconnect {s : RouterState} (inst : CastInstance) :
      Reachable s → Reachable (onDisconnect s inst)
  | setApp {s : RouterState} (inst : CastInstance) (appId : String) :
      Reachable s → Reachable (setAppId s inst appId)

/-- Claim C3's invariant: among registered cross-boundary instances
sharing one (tab id, frame id) identity, at most one still has a
non-disconnected bridge channel. -/
def AtMostOneLivePerTabFrame (s : RouterState) : Prop :=
  ∀ i ∈ s.activeInstances, ∀ j ∈ s.activeInstances, i ≠ j →
    i.contentTabId ≠ none → i.contentFrameId ≠ none →
    i.contentTabId = j.contentTabId → i.contentFrameId = j.contentFrameId →
    i.bridgePort ∈ s.disconnectedPorts ∨ j.bridgePort ∈ s.disconnectedPorts

/-- A concrete live cross-boundary instance at (tab 1, frame 5). -/
def demoInstanceFrame5 : CastInstance :=
  { bridgePort := 0
    contentPort := 1
    contentTabId := some 1
    contentFrameId := some 5
    appId := none }

/-- A concrete Cast/App selection choosing `demoDeviceNoStatus`. -/
def demoAppSelection : ReceiverSelection :=
  { actionType := .Cast
    mediaType := .App
    receiverDevice := deviceManager.demoDeviceNoStatus
    filePath := none }

/-- A concrete Cast/Tab selection choosing `demoDeviceNoStatus`. -/
def demoTabSelection : ReceiverSelection :=
  { actionType := .Cast
    mediaType := .Tab
    receiverDevice := deviceManager.demoDeviceNoStatus
    filePath := none }

/-- A concrete environment whose selection workflow returns the Tab
selection and whose registry knows two devices. -/
def demoEnv : RouterEnv :=
  { getSelection := .ok (some demoTabSelection)
    selectorIsOpen := true
    receiverSelectorWaitForConnection := false
    devices := [deviceManager.demoDeviceNoStatus,
                deviceManager.demoDeviceWithStatus] }

/-- A concrete `bridge:`-namespaced message. -/
def demoBridgeMsg : Message :=
  { subject := "bridge:startDiscovery", data := .startDiscovery true }

/-- A router state reached by creating two cross-boundary instances for
the same (tab 1, frame 0) identity. -/
def demoRouterState : RouterState :=
  createInstanceFromContent
    (createInstanceFromContent initialRouterState 1 0) 1 0

end castManager

/-! ## Theorems: device registry table operations -/

namespace deviceManager

theorem tblGet_tblSet (t : DeviceTable) (k : String) (v : ReceiverDevice)
    (k' : String) :
    tblGet (tblSet t k v) k' = if k = k' then some v else tblGet t k' := by
  induction t with
  | nil => by_cases h : k = k' <;> simp [tblSet, tblGet, h]
  | cons hd tl ih =>
    obtain ⟨k₀, v₀⟩ := hd
    by_cases h₀ : k₀ = k <;> by_cases h : k = k' <;>
      by_cases h₁ : k₀ = k' <;>
      simp_all [tblSet, tblGet]

theorem tblGet_tblDelete (t : DeviceTable) (k k' : String) :
    tblGet (tblDelete t k) k' = if k = k' then none else tblGet t k' := by
  induction t with
  | nil => simp [tblDelete, tblGet]
  | cons hd tl ih =>
    obtain ⟨k₀, v₀⟩ := hd
    by_cases h₀ : k₀ = k <;> by_cases h : k = k' <;>
      by_cases h₁ : k₀ = k' <;>
      simp_all [tblDelete, tblGet]

theorem noDupKeys_tblSet {t : DeviceTable} (h : NoDupKeys t) (k : String)
    (v : ReceiverDevice) : NoDupKeys (tblSet t k v) := by
  induction t with
  | nil => simp [tblSet, NoDupKeys]
  | cons hd tl ih =>
    obtain ⟨k₀, v₀⟩ := hd
    simp only [NoDupKeys, List.map_cons, List.nodup_cons] at h
    by_cases h₀ : k₀ = k
    · subst h₀
      simpa [tblSet, NoDupKeys] using h
    · have htl : NoDupKeys (tblSet tl k v) := ih h.2
      simp only [tblSet, if_neg h₀, NoDupKeys, List.map_cons, List.nodup_cons]
      refine ⟨?_, htl⟩
      intro hmem
      rcases List.mem_map.mp hmem with ⟨⟨k₁, v₁⟩, hm, hk⟩
      -- a key of `tblSet tl k v` is either `k` or a key of `tl`
      have : k₁ = k ∨ (k₁, v₁) ∈ tl := by
        clear ih htl h hmem
        induction tl with
        | nil =>
          simp [tblSet] at hm
          exact Or.inl hm.1
        | cons hd' tl' ih' =>
          obtain ⟨k₂, v₂⟩ := hd'
          by_cases h₂ : k₂ = k
          · subst h₂
            simp only [tblSet, if_pos rfl] at hm
            rcases List.mem_cons.mp hm with h' | h'
            · exact Or.inl (congrArg Prod.fst h')
            · exact Or.inr (List.mem_cons_of_mem _ h')
          · simp only [tblSet, if_neg h₂] at hm
            rcases List.mem_cons.mp hm with h' | h'
            · exact Or.inr (List.mem_cons.mpr (Or.inl h'))
            · rcases ih' h' with h'' | h''
              · exact Or.inl h''
              · exact Or.inr (List.mem_cons_of_mem _ h'')
      rcases this with h' | h'
      · exact h₀ (hk ▸ h' ▸ rfl)
      · exact h.1 (List.mem_map.mpr ⟨(k₁, v₁), h', hk⟩)

theorem noDupKeys_tblDelete {t : DeviceTable} (h : NoDupKeys t) (k : String) :
    NoDupKeys (tblDelete t k) := by
  induction t with
  | nil => simpa [tblDelete] using h
  | cons hd tl ih =>
    obtain ⟨k₀, v₀⟩ := hd
    simp only [NoDupKeys, List.map_cons, List.nodup_cons] at h
    by_cases h₀ : k₀ = k
    · subst h₀
      simpa [tblDelete] using ih h.2
    · simp only [tblDelete, if_neg h₀, NoDupKeys, List.map_cons,
        List.nodup_cons]
      refine ⟨?_, ih h.2⟩
      intro hmem
      rcases List.mem_map.mp hmem with ⟨⟨k₁, v₁⟩, hm, hk⟩
      have hsub : (k₁, v₁) ∈ tl := by
        clear ih h hmem
        induction tl with
        | nil => simp [tblDelete] at hm
        | cons hd' tl' ih' =>
          obtain ⟨k₂, v₂⟩ := hd'
          by_cases h₂ : k₂ = k
          · subst h₂
            simp only [tblDelete, if_pos rfl] at hm
            exact List.mem_cons_of_mem _ (ih' hm)
          · simp only [tblDelete, if_neg h₂] at hm
            rcases List.mem_cons.mp hm with h' | h'
            · exact List.mem_cons.mpr (Or.inl h')
            · exact List.mem_cons_of_mem _ (ih' h')
      exact h.1 (List.mem_map.mpr ⟨(k₁, v₁), hsub, hk⟩)

theorem tblGet_some_mem_keys {t : DeviceTable} {k : String}
    {d : ReceiverDevice} (h : tblGet t k = some d) : k ∈ t.map Prod.fst := by
  induction t with
  | nil => simp [tblGet] at h
  | cons hd tl ih =>
    obtain ⟨k₀, v₀⟩ := hd
    by_cases h₀ : k₀ = k
    · simp [h₀]
    · simp only [tblGet, if_neg h₀] at h
      simpa using Or.inr (ih h)

theorem mem_tblValues_iff {t : DeviceTable} (hnd : NoDupKeys t)
    (d : ReceiverDevice) :
    d ∈ tblValues t ↔ ∃ k, tblGet t k = some d := by
  induction t with
  | nil => simp [tblValues, tblGet]
  | cons hd tl ih =>
    obtain ⟨k₀, v₀⟩ := hd
    simp only [NoDupKeys, List.map_cons, List.nodup_cons] at hnd
    constructor
    · intro hmem
      rcases List.mem_cons.mp hmem with h | h
      · exact ⟨k₀, by simp [tblGet, h]⟩
      · rcases (ih hnd.2).mp h with ⟨k, hk⟩
        refine ⟨k, ?_⟩
        have : ¬k₀ = k := fun hc => hnd.1 (hc ▸ tblGet_some_mem_keys hk)
        simp [tblGet, this, hk]
    · rintro ⟨k, hk⟩
      by_cases h₀ : k₀ = k
      · simp only [tblGet, if_pos h₀] at hk
        exact List.mem_cons.mpr (Or.inl (Option.some.inj hk).symm)
      · simp only [tblGet, if_neg h₀] at hk
        exact List.mem_cons_of_mem _ ((ih hnd.2).mpr ⟨k, hk⟩)

theorem mergedStatus_eq_spec (oldStatus : Option ReceiverStatus)
    (status : ReceiverStatus) :
    mergedStatus oldStatus status = specMergedStatus oldStatus status := by
  cases oldStatus with
  | none =>
    obtain ⟨a, b, c, apps⟩ := status
    cases apps <;> simp [mergedStatus, specMergedStatus]
  | some old => simp [mergedStatus, specMergedStatus]

theorem tblHas_false_get_none {t : DeviceTable} {k : String}
    (h : ¬tblHas t k = true) : tblGet t k = none := by
  cases hg : tblGet t k with
  | none => rfl
  | some v => exact absurd (by simp [tblHas, hg]) h

theorem tblGet_onBridgeMessage_step {t : DeviceTable}
    {f : String → Option ReceiverDevice} (hagree : ∀ k, tblGet t k = f k)
    (e : DeviceStateEvent) (k : String) :
    tblGet (onBridgeMessage t e.toMessage).1 k = specStep f e k := by
  cases e with
  | up deviceId deviceInfo =>
    simp only [DeviceStateEvent.toMessage, onBridgeMessage, specStep,
      tblGet_tblSet]
    by_cases h : deviceId = k
    · simp [h]
    · have h' : ¬k = deviceId := fun hc => h hc.symm
      simp [h, h', hagree]
  | down deviceId =>
    simp only [DeviceStateEvent.toMessage, onBridgeMessage, specStep]
    by_cases hhas : tblHas t deviceId = true
    · simp only [if_pos hhas, tblGet_tblDelete]
      by_cases h : deviceId = k
      · simp [h]
      · have h' : ¬k = deviceId := fun hc => h hc.symm
        simp [h, h', hagree]
    · simp only [if_neg hhas]
      by_cases h : k = deviceId
      · have hnone := tblHas_false_get_none hhas
        simp [h, hnone]
      · simp [h, hagree]
  | statusUpdated deviceId status =>
    simp only [DeviceStateEvent.toMessage, onBridgeMessage, specStep]
    rw [← hagree deviceId]
    cases hget : tblGet t deviceId with
    | none =>
      rw [hagree k]
      by_cases h : k = deviceId <;> simp [h]
    | some device =>
      simp only [tblGet_tblSet, mergedStatus_eq_spec]
      by_cases h : deviceId = k
      · simp [h]
      · have h' : ¬k = deviceId := fun hc => h hc.symm
        simp [h, h', hagree]

theorem noDupKeys_onBridgeMessage {t : DeviceTable} (h : NoDupKeys t)
    (m : RegistryInMessage) : NoDupKeys (onBridgeMessage t m).1 := by
  cases m with
  | receiverDeviceUp deviceId deviceInfo =>
    exact noDupKeys_tblSet h deviceId deviceInfo
  | receiverDeviceDown deviceId =>
    by_cases hhas : tblHas t deviceId = true
    · simpa [onBridgeMessage, hhas] using noDupKeys_tblDelete h deviceId
    · simpa [onBridgeMessage, hhas] using h
  | receiverDeviceStatusUpdated deviceId status =>
    cases hget : tblGet t deviceId with
    | none => simpa [onBridgeMessage, hget] using h
    | some device =>
      simpa [onBridgeMessage, hget] using
        noDupKeys_tblSet h deviceId
          { device with status := some (mergedStatus device.status status) }
  | receiverDeviceMediaStatusUpdated deviceId => exact h
  | other subject => exact h

theorem noDupKeys_foldl {t : DeviceTable} (h : NoDupKeys t)
    (events : List DeviceStateEvent) :
    NoDupKeys (events.foldl (fun t e => (onBridgeMessage t e.toMessage).1) t) := by
  induction events generalizing t with
  | nil => exact h
  | cons e es ih => exact ih (noDupKeys_onBridgeMessage h e.toMessage)

theorem noDupKeys_replayTable (events : List DeviceStateEvent) :
    NoDupKeys (replayTable events) :=
  noDupKeys_foldl (by simp [NoDupKeys]) events

theorem tblGet_foldl_eq_specFoldl {t : DeviceTable}
    {f : String → Option ReceiverDevice} (hagree : ∀ k, tblGet t k = f k)
    (events : List DeviceStateEvent) (k : String) :
    tblGet (events.foldl (fun t e => (onBridgeMessage t e.toMessage).1) t) k
      = events.foldl specStep f k := by
  induction events generalizing t f with
  | nil => exact hagree k
  | cons e es ih =>
    exact ih (fun k' => tblGet_onBridgeMessage_step hagree e k')

theorem tblGet_replayTable (events : List DeviceStateEvent) (k : String) :
    tblGet (replayTable events) k = specReplay events k :=
  tblGet_foldl_eq_specFoldl (fun _ => rfl) events k

/-- Claim C2: for every finite sequence of device-up, device-down and
device-status-updated events applied to an initially empty registry,
`getDevices()` afterwards equals (as a set) the devices obtained by
replaying the spec's §4.1 merge rules: up inserts/overwrites under the id,
down removes if present, status-updated merges `isActiveInput`,
`isStandBy`, `volume`, replaces `applications` wholesale only when the
update provides it, and is ignored for an unknown device. -/
theorem getDevices_eq_specReplay (events : List DeviceStateEvent)
    (d : ReceiverDevice) :
    d ∈ getDevices (replayTable events)
      ↔ ∃ id, specReplay events id = some d := by
  rw [getDevices, mem_tblValues_iff (noDupKeys_replayTable events)]
  exact exists_congr (fun k => by rw [tblGet_replayTable])

/-- Claim C10: a device-status-updated event for a known device whose
stored status is absent sets the stored status to the incoming status
wholesale (in particular, an update without an applications list leaves
the stored status without one), and the emitted updated event carries
exactly that stored status. -/
theorem statusUpdated_absent_status_wholesale (t : DeviceTable)
    (deviceId : String) (d : ReceiverDevice) (status : ReceiverStatus)
    (hget : tblGet t deviceId = some d) (hst : d.status = none) :
    (onBridgeMessage t (.receiverDeviceStatusUpdated deviceId status)).2
        = [DeviceEvent.updated deviceId status]
    ∧ tblGet (onBridgeMessage t
          (.receiverDeviceStatusUpdated deviceId status)).1 deviceId
        = some { d with status := some status } := by
  constructor
  · simp [onBridgeMessage, hget, hst, mergedStatus]
  · simp [onBridgeMessage, hget, hst, mergedStatus, tblGet_tblSet]

/-- Witness for C10 at a concrete one-device table and a concrete
applications-free status update. -/
theorem statusUpdated_absent_status_wholesale_witness :
    (onBridgeMessage [("a", demoDeviceNoStatus)]
        (.receiverDeviceStatusUpdated "a" demoStatusNoApps)).2
        = [DeviceEvent.updated "a" demoStatusNoApps]
    ∧ tblGet (onBridgeMessage [("a", demoDeviceNoStatus)]
          (.receiverDeviceStatusUpdated "a" demoStatusNoApps)).1 "a"
        = some { demoDeviceNoStatus with status := some demoStatusNoApps } :=
  statusUpdated_absent_status_wholesale _ "a" demoDeviceNoStatus
    demoStatusNoApps (by decide) (by decide)

theorem count_emit_down_map (l : List ReceiverDevice) (a : String) :
    ((l.map (fun d => RegistryEffect.emit (.down d.id))).count
        (RegistryEffect.emit (.down a)))
      = (l.map (fun d => d.id)).count a := by
  induction l with
  | nil => rfl
  | cons d ds ih => by_cases h : d.id = a <;> simp [List.count_cons, h, ih]

theorem wellFormed_ids_nodup {t : DeviceTable} (hwf : WellFormedTable t) :
    ((tblValues t).map (fun d => d.id)).Nodup := by
  have : (tblValues t).map (fun d => d.id) = t.map Prod.fst := by
    rw [tblValues, List.map_map]
    exact List.map_congr_left hwf.2
  rw [this]
  exact hwf.1

/-- Claim C4: on upstream channel disconnect, exactly one
`receiverDeviceDown` event is emitted per previously-known device (each
exactly once, carrying that device's id), the table becomes empty, and the
re-initialization is scheduled after the fixed 10000 ms delay; `refresh`
itself tears down any existing channel, clears the table, opens exactly
one fresh channel and sends `bridge:startDiscovery` with
`shouldWatchStatus: true` on it. -/
theorem onBridgeDisconnect_then_refresh (t : DeviceTable)
    (hwf : WellFormedTable t) :
    (onBridgeDisconnect t).1 = []
    ∧ (onBridgeDisconnect t).2
        = (tblValues t).map (fun d => RegistryEffect.emit (.down d.id))
          ++ [RegistryEffect.setTimeout 10000]
    ∧ (∀ d ∈ tblValues t,
        (onBridgeDisconnect t).2.count (RegistryEffect.emit (.down d.id)) = 1)
    ∧ (∀ (s : RegistryState) (newPortId : Nat),
        (refresh s newPortId).1.receiverDevices = []
        ∧ (refresh s newPortId).1.bridgePort = some newPortId
        ∧ ((refresh s newPortId).2.filter RegistryEffect.isOpenPort)
            = [RegistryEffect.openPort newPortId]
        ∧ RegistryEffect.postMessage newPortId
            { subject := "bridge:startDiscovery"
              data := .startDiscovery true } ∈ (refresh s newPortId).2
        ∧ (∀ portId, s.bridgePort = some portId →
            RegistryEffect.disconnectPort portId ∈ (refresh s newPortId).2)) := by
  refine ⟨rfl, rfl, ?_, ?_⟩
  · intro d hd
    rw [onBridgeDisconnect]
    rw [List.count_append, count_emit_down_map]
    have h1 : ((tblValues t).map (fun d => d.id)).count d.id = 1 :=
      List.count_eq_one_of_mem (wellFormed_ids_nodup hwf)
        (List.mem_map.mpr ⟨d, hd, rfl⟩)
    simp [h1, List.count_cons]
  · intro s newPortId
    refine ⟨rfl, rfl, ?_, ?_, ?_⟩
    · cases h : s.bridgePort <;>
        simp [refresh, h, RegistryEffect.isOpenPort]
    · cases h : s.bridgePort <;> simp [refresh, h]
    · intro portId hp
      simp [refresh, hp]

/-- Witness for C4 at a concrete well-formed two-device state: both
devices' down events are counted exactly once. -/
theorem onBridgeDisconnect_then_refresh_witness :
    (onBridgeDisconnect demoRegistryState.receiverDevices).1 = []
    ∧ (onBridgeDisconnect demoRegistryState.receiverDevices).2.count
        (RegistryEffect.emit (.down "a")) = 1
    ∧ (onBridgeDisconnect demoRegistryState.receiverDevices).2.count
        (RegistryEffect.emit (.down "b")) = 1 := by
  have hwf : WellFormedTable demoRegistryState.receiverDevices := by
    constructor
    · simp [NoDupKeys, demoRegistryState]
    · intro p hp
      simp [demoRegistryState] at hp
      rcases hp with h | h <;>
        simp [h, demoDeviceNoStatus, demoDeviceWithStatus]
  have h := onBridgeDisconnect_then_refresh
    demoRegistryState.receiverDevices hwf
  refine ⟨h.1, ?_, ?_⟩
  · have := h.2.2.1 demoDeviceNoStatus (by
      simp [demoRegistryState, tblValues])
    simpa [demoDeviceNoStatus] using this
  · have := h.2.2.1 demoDeviceWithStatus (by
      simp [demoRegistryState, tblValues])
    simpa [demoDeviceWithStatus] using this

/-- Claim C9 counterexample: with a live upstream port and an unknown
device id, `stopReceiverApp` logs no error at all — the effect trace is
empty — contradicting the claim that an unknown device id logs an error. -/
theorem stopReceiverApp_counterexample :
    (stopReceiverApp demoEmptyRegistryState "x").2 = []
    ∧ ∀ text, RegistryEffect.logError text
        ∉ (stopReceiverApp demoEmptyRegistryState "x").2 := by
  constructor
  · rfl
  · intro text
    simp [stopReceiverApp, demoEmptyRegistryState, tblGet]

/-- Claim C9 (amended): `stopReceiverApp(deviceId)` leaves the registry
state (in particular the device table) unchanged; with a live upstream
port it sends `bridge:stopCastSession` carrying the device when the id is
known, and does nothing at all (no message, no error log) when the id is
unknown; an error is logged only when there is no upstream port. -/
theorem stopReceiverApp_spec (s : RegistryState) (receiverDeviceId : String) :
    (stopReceiverApp s receiverDeviceId).1 = s
    ∧ (∀ portId, s.bridgePort = some portId →
        (∀ d, tblGet s.receiverDevices receiverDeviceId = some d →
          (stopReceiverApp s receiverDeviceId).2
            = [RegistryEffect.postMessage portId
                { subject := "bridge:stopCastSession"
                  data := .receiverDevice d }])
        ∧ (tblGet s.receiverDevices receiverDeviceId = none →
            (stopReceiverApp s receiverDeviceId).2 = []))
    ∧ (s.bridgePort = none →
        (stopReceiverApp s receiverDeviceId).2
          = [RegistryEffect.logError
              "Failed to stop receiver device, no bridge connection"]) := by
  refine ⟨?_, ?_, ?_⟩
  · cases hp : s.bridgePort with
    | none => simp [stopReceiverApp, hp]
    | some portId =>
      cases hg : tblGet s.receiverDevices receiverDeviceId <;>
        simp [stopReceiverApp, hp, hg]
  · intro portId hp
    constructor
    · intro d hg
      simp [stopReceiverApp, hp, hg]
    · intro hg
      simp [stopReceiverApp, hp, hg]
  · intro hp
    simp [stopReceiverApp, hp]

/-- Witness for C9 (amended) at the concrete two-device state: stopping a
known device posts the stop-session request on the live port. -/
theorem stopReceiverApp_spec_witness :
    (stopReceiverApp demoRegistryState "a").1 = demoRegistryState
    ∧ (stopReceiverApp demoRegistryState "a").2
        = [RegistryEffect.postMessage 0
            { subject := "bridge:stopCastSession"
              data := .receiverDevice demoDeviceNoStatus }] :=
  ⟨(stopReceiverApp_spec demoRegistryState "a").1,
   ((stopReceiverApp_spec demoRegistryState "a").2.1 0 rfl).1
     demoDeviceNoStatus (by decide)⟩

end deviceManager

/-! ## Theorems: session router instance lifecycle -/

namespace castManager

theorem filter_idem {α : Type} (p : α → Bool) (l : List α) :
    (l.filter p).filter p = l.filter p := by
  induction l with
  | nil => rfl
  | cons hd tl ih => by_cases h : p hd <;> simp [List.filter_cons, h, ih]

theorem filter_swap {α : Type} (p q : α → Bool) (l : List α) :
    (l.filter p).filter q = (l.filter q).filter p := by
  induction l with
  | nil => rfl
  | cons hd tl ih =>
    by_cases hp : p hd <;> by_cases hq : q hd <;>
      simp [List.filter_cons, hp, hq, ih]

theorem addPort_mem_self (ports : List Nat) (portId : Nat) :
    portId ∈ addPort ports portId := by
  by_cases h : portId ∈ ports <;> simp [addPort, h]

theorem addPort_mem_mono {ports : List Nat} {x : Nat} (h : x ∈ ports)
    (portId : Nat) : x ∈ addPort ports portId := by
  by_cases hp : portId ∈ ports <;> simp [addPort, hp, h]

theorem addPort_eq_of_mem {ports : List Nat} {portId : Nat}
    (h : portId ∈ ports) : addPort ports portId = ports := by
  simp [addPort, h]

theorem filter_two_idem {α : Type} (p q : α → Bool) (l : List α) :
    ((l.filter p).filter q).filter p = (l.filter p).filter q := by
  rw [filter_swap q p (l.filter p), filter_idem]

/-- Claim C8: the cross-boundary teardown callback is idempotent: one run
removes the instance from the live set (leaving exactly the other
instances), disconnects both of the instance's ports and removes both
directions' message listeners; a second run is a no-op returning the very
same state, so disconnecting the instance's two channels in either order —
both disconnect events invoke this same total callback — removes the
instance exactly once and never throws. -/
theorem onDisconnect_idempotent (s : RouterState) (inst : CastInstance) :
    onDisconnect (onDisconnect s inst) inst = onDisconnect s inst
    ∧ (onDisconnect s inst).activeInstances
        = s.activeInstances.filter (fun j => j ≠ inst)
    ∧ inst ∉ (onDisconnect s inst).activeInstances
    ∧ inst.bridgePort ∈ (onDisconnect s inst).disconnectedPorts
    ∧ inst.contentPort ∈ (onDisconnect s inst).disconnectedPorts
    ∧ inst.bridgePort ∉ (onDisconnect s inst).messageListeners
    ∧ inst.contentPort ∉ (onDisconnect s inst).messageListeners := by
  refine ⟨?_, rfl, ?_, ?_, ?_, ?_, ?_⟩
  · simp only [onDisconnect]
    congr 1
    · exact filter_idem _ _
    · have hb : inst.bridgePort
          ∈ addPort (addPort s.disconnectedPorts inst.bridgePort)
              inst.contentPort :=
        addPort_mem_mono (addPort_mem_self _ _) _
      rw [addPort_eq_of_mem hb,
        addPort_eq_of_mem (addPort_mem_self _ inst.contentPort)]
    · rw [filter_two_idem]
      exact filter_two_idem _ _ _
  · simp [onDisconnect, List.mem_filter]
  · exact addPort_mem_mono (addPort_mem_self _ _) _
  · exact addPort_mem_self _ _
  · simp [onDisconnect, List.mem_filter]
  · simp [onDisconnect, List.mem_filter]

/-- Witness for C8 at a concrete one-instance state. -/
theorem onDisconnect_idempotent_witness :
    onDisconnect
        (onDisconnect
          { activeInstances := [demoInstanceFrame5]
            disconnectedPorts := []
            messageListeners := [0, 1]
            nextPortId := 2 } demoInstanceFrame5)
        demoInstanceFrame5
      = onDisconnect
          { activeInstances := [demoInstanceFrame5]
            disconnectedPorts := []
            messageListeners := [0, 1]
            nextPortId := 2 } demoInstanceFrame5
    ∧ demoInstanceFrame5
        ∉ (onDisconnect
            { activeInstances := [demoInstanceFrame5]
              disconnectedPorts := []
              messageListeners := [0, 1]
              nextPortId := 2 } demoInstanceFrame5).activeInstances :=
  ⟨(onDisconnect_idempotent _ demoInstanceFrame5).1,
   (onDisconnect_idempotent _ demoInstanceFrame5).2.2.1⟩

theorem foldl_disconnectMatching_mono
    (l : List CastInstance) (acc : List Nat) (tabId frameId : Nat)
    {x : Nat} (hx : x ∈ acc) :
    x ∈ l.foldl
      (fun acc inst =>
        if inst.contentTabId = some tabId ∧ inst.contentFrameId = some frameId
        then addPort acc inst.bridgePort else acc)
      acc := by
  induction l generalizing acc with
  | nil => exact hx
  | cons hd tl ih =>
    simp only [List.foldl_cons]
    by_cases h : hd.contentTabId = some tabId
        ∧ hd.contentFrameId = some frameId
    · rw [if_pos h]
      exact ih _ (addPort_mem_mono hx _)
    · rw [if_neg h]
      exact ih _ hx

theorem foldl_disconnectMatching_hit
    {l : List CastInstance} {inst : CastInstance} (hmem : inst ∈ l)
    (acc : List Nat) (tabId frameId : Nat)
    (htab : inst.contentTabId = some tabId)
    (hfr : inst.contentFrameId = some frameId) :
    inst.bridgePort ∈ l.foldl
      (fun acc inst =>
        if inst.contentTabId = some tabId ∧ inst.contentFrameId = some frameId
        then addPort acc inst.bridgePort else acc)
      acc := by
  induction l generalizing acc with
  | nil => cases hmem
  | cons hd tl ih =>
    simp only [List.foldl_cons]
    rcases List.mem_cons.mp hmem with h | h
    · subst h
      rw [if_pos ⟨htab, hfr⟩]
      exact foldl_disconnectMatching_mono tl _ tabId frameId
        (addPort_mem_self _ _)
    · by_cases h' : hd.contentTabId = some tabId
          ∧ hd.contentFrameId = some frameId
      · rw [if_pos h']
        exact ih h _
      · rw [if_neg h']
        exact ih h _

theorem atMostOne_createContent {s : RouterState}
    (hs : AtMostOneLivePerTabFrame s) (tabId frameId : Nat) :
    AtMostOneLivePerTabFrame (createInstanceFromContent s tabId frameId) := by
  intro i hi j hj hne hitab hifr htab hfr
  simp only [createInstanceFromContent, List.mem_append,
    List.mem_singleton] at hi hj
  have hmono : ∀ x ∈ s.disconnectedPorts,
      x ∈ (createInstanceFromContent s tabId frameId).disconnectedPorts :=
    fun x hx => foldl_disconnectMatching_mono _ _ tabId frameId hx
  rcases hi with hi | hi <;> rcases hj with hj | hj
  · rcases hs i hi j hj hne hitab hifr htab hfr with h | h
    · exact Or.inl (hmono _ h)
    · exact Or.inr (hmono _ h)
  · -- j is the new instance: i is an old instance at the same tab/frame
    have hjt : j.contentTabId = some tabId := by rw [hj]
    have hjf : j.contentFrameId = some frameId := by rw [hj]
    exact Or.inl (foldl_disconnectMatching_hit hi _ tabId frameId
      (htab.trans hjt) (hfr.trans hjf))
  · -- i is the new instance: j is an old instance at the same tab/frame
    have hit : i.contentTabId = some tabId := by rw [hi]
    have hif : i.contentFrameId = some frameId := by rw [hi]
    exact Or.inr (foldl_disconnectMatching_hit hj _ tabId frameId
      (htab.symm.trans hit) (hfr.symm.trans hif))
  · exact absurd (hi.trans hj.symm) hne

theorem atMostOne_createBackground {s : RouterState}
    (hs : AtMostOneLivePerTabFrame s) :
    AtMostOneLivePerTabFrame (createInstanceFromBackground s) := by
  intro i hi j hj hne hitab hifr htab hfr
  simp only [createInstanceFromBackground, List.mem_append,
    List.mem_singleton] at hi hj
  rcases hi with hi | hi <;> rcases hj with hj | hj
  · exact hs i hi j hj hne hitab hifr htab hfr
  · exact absurd (htab.trans (by rw [hj])) hitab
  · exact absurd (show i.contentTabId = none by rw [hi]) hitab
  · exact absurd (hi.trans hj.symm) hne

theorem atMostOne_onDisconnect {s : RouterState}
    (hs : AtMostOneLivePerTabFrame s) (inst : CastInstance) :
    AtMostOneLivePerTabFrame (onDisconnect s inst) := by
  intro i hi j hj hne hitab hifr htab hfr
  simp only [onDisconnect] at hi hj ⊢
  rcases hs i (List.mem_of_mem_filter hi) j (List.mem_of_mem_filter hj)
      hne hitab hifr htab hfr with h | h
  · exact Or.inl (addPort_mem_mono (addPort_mem_mono h _) _)
  · exact Or.inr (addPort_mem_mono (addPort_mem_mono h _) _)

theorem atMostOne_setAppId {s : RouterState}
    (hs : AtMostOneLivePerTabFrame s) (inst : CastInstance)
    (appId : String) :
    AtMostOneLivePerTabFrame (setAppId s inst appId) := by
  intro i hi j hj hne hitab hifr htab hfr
  simp only [setAppId] at hi hj ⊢
  rcases List.mem_map.mp hi with ⟨i₀, hi₀, hi₀e⟩
  rcases List.mem_map.mp hj with ⟨j₀, hj₀, hj₀e⟩
  have hpres : ∀ x : CastInstance,
      (if x = inst then { x with appId := some appId } else x).bridgePort
          = x.bridgePort
      ∧ (if x = inst then { x with appId := some appId } else x).contentTabId
          = x.contentTabId
      ∧ (if x = inst then { x with appId := some appId } else x).contentFrameId
          = x.contentFrameId := by
    intro x
    by_cases hx : x = inst <;> simp [hx]
  have hne₀ : i₀ ≠ j₀ := by
    intro hc
    exact hne (hi₀e ▸ hj₀e ▸ hc ▸ rfl)
  have h := hs i₀ hi₀ j₀ hj₀ hne₀
    (by rw [← (hpres i₀).2.1, hi₀e]; exact hitab)
    (by rw [← (hpres i₀).2.2, hi₀e]; exact hifr)
    (by rw [← (hpres i₀).2.1, ← (hpres j₀).2.1, hi₀e, hj₀e]; exact htab)
    (by rw [← (hpres i₀).2.2, ← (hpres j₀).2.2, hi₀e, hj₀e]; exact hfr)
  rcases h with h | h
  · exact Or.inl (by rw [← hi₀e, (hpres i₀).1]; exact h)
  · exact Or.inr (by rw [← hj₀e, (hpres j₀).1]; exact h)

theorem reachable_atMostOneLive {s : RouterState} (h : Reachable s) :
    AtMostOneLivePerTabFrame s := by
  induction h with
  | init =>
    intro i hi
    simp [initialRouterState] at hi
  | createContent tabId frameId hr ih => exact atMostOne_createContent ih _ _
  | createBackground hr ih => exact atMostOne_createBackground ih
  | disconnect inst hr ih => exact atMostOne_onDisconnect ih inst
  | setApp inst appId hr ih => exact atMostOne_setAppId ih inst appId

/-- Claim C3: in every reachable router state at most one live
cross-boundary instance exists per (tab id, frame id): of any two
registered instances with that same identity, at least one has had its
bridge channel disconnected.  Moreover, creating a new cross-boundary
instance over an occupied identity disconnects every prior matching
instance's bridge channel in the resulting state, in which the fresh
instance is registered and proceeds. -/
theorem crossBoundary_unique_per_tab_frame (s : RouterState)
    (h : Reachable s) :
    AtMostOneLivePerTabFrame s
    ∧ (∀ tabId frameId old, old ∈ s.activeInstances →
        old.contentTabId = some tabId → old.contentFrameId = some frameId →
          old.bridgePort
            ∈ (createInstanceFromContent s tabId frameId).disconnectedPorts)
    ∧ (∀ tabId frameId,
        ({ bridgePort := s.nextPortId
           contentPort := s.nextPortId + 1
           contentTabId := some tabId
           contentFrameId := some frameId
           appId := none } : CastInstance)
          ∈ (createInstanceFromContent s tabId frameId).activeInstances) := by
  refine ⟨reachable_atMostOneLive h, ?_, ?_⟩
  · intro tabId frameId old hold htab hfr
    exact foldl_disconnectMatching_hit hold _ tabId frameId htab hfr
  · intro tabId frameId
    simp [createInstanceFromContent]

/-- Witness for C3 at the concrete reachable state built by creating two
instances for (tab 1, frame 0): the first instance's bridge port 0 is
disconnected there. -/
theorem crossBoundary_unique_per_tab_frame_witness :
    AtMostOneLivePerTabFrame demoRouterState
    ∧ (0 : Nat) ∈ demoRouterState.disconnectedPorts :=
  ⟨(crossBoundary_unique_per_tab_frame demoRouterState
      (Reachable.createContent 1 0
        (Reachable.createContent 1 0 Reachable.init))).1,
   by decide⟩

/-! ## Theorems: session router message handling -/

/-- Claim C1: a sender-channel message whose subject's namespace prefix
(the text before the first `:`) is `bridge` is forwarded verbatim to the
instance's bridge channel before any local handling, unconditionally —
the local-handling switch still runs and its effects follow, so both can
fire for one message; `bridge:startDiscovery` in particular matches no
local-handling branch (no instance change, no local effects) and is only
forwarded. -/
theorem bridge_prefix_forwarded (env : RouterEnv)
    (activeInstances : List CastInstance) (inst : CastInstance)
    (message : Message)
    (h : subjectDestination message.subject = "bridge") :
    (handleContentMessage env activeInstances inst message).2
        = RouterEffect.postMessage inst.bridgePort message
            :: (localHandle env activeInstances inst message).2
    ∧ (handleContentMessage env activeInstances inst message).1
        = (localHandle env activeInstances inst message).1
    ∧ (∀ (env' : RouterEnv) (insts' : List CastInstance)
          (inst' : CastInstance) (d : MsgData),
        localHandle env' insts' inst'
            { subject := "bridge:startDiscovery", data := d } = (inst', [])
        ∧ (handleContentMessage env' insts' inst'
              { subject := "bridge:startDiscovery", data := d }).2
            = [RouterEffect.postMessage inst'.bridgePort
                { subject := "bridge:startDiscovery", data := d }]) := by
  refine ⟨by simp [handleContentMessage, h], rfl, ?_⟩
  intro env' insts' inst' d
  have h1 : ¬(("bridge:startDiscovery" : String) = "main:initializeCast") := by
    decide
  have h2 : ¬(("bridge:startDiscovery" : String) = "main:selectReceiver") := by
    decide
  have h3 : ¬(("bridge:startDiscovery" : String)
      = "main:closeReceiverSelector") := by decide
  have hl : localHandle env' insts' inst'
      { subject := "bridge:startDiscovery", data := d } = (inst', []) := by
    simp only [localHandle]
    rw [if_neg h1, if_neg h2, if_neg h3]
  have hdest : subjectDestination "bridge:startDiscovery" = "bridge" := by
    decide
  exact ⟨hl, by simp [handleContentMessage, hl, hdest]⟩

/-- Witness for C1 at the concrete `bridge:startDiscovery` message. -/
theorem bridge_prefix_forwarded_witness :
    (handleContentMessage demoEnv [] demoInstanceFrame5 demoBridgeMsg).2
      = RouterEffect.postMessage demoInstanceFrame5.bridgePort demoBridgeMsg
          :: (localHandle demoEnv [] demoInstanceFrame5 demoBridgeMsg).2 :=
  (bridge_prefix_forwarded demoEnv [] demoInstanceFrame5 demoBridgeMsg
    (by decide)).1

/-- Claim C5: on `main:initializeCast` the router records the given
application id on the instance, and sends exactly one
`cast:receiverDeviceUp` message to the instance's sender channel per
device currently known to the registry, each carrying that device's full
info — n known devices yield exactly n messages. -/
theorem initializeCast_fans_out_devices (env : RouterEnv)
    (activeInstances : List CastInstance) (inst : CastInstance)
    (appId : String) :
    handleContentMessage env activeInstances inst
        { subject := "main:initializeCast", data := .initializeCast appId }
      = ({ inst with appId := some appId },
         env.devices.map (fun receiverDevice =>
           RouterEffect.postMessage inst.contentPort
             { subject := "cast:receiverDeviceUp"
               data := .receiverDevice receiverDevice }))
    ∧ (handleContentMessage env activeInstances inst
        { subject := "main:initializeCast"
          data := .initializeCast appId }).2.length
      = env.devices.length := by
  have hdest : ¬subjectDestination "main:initializeCast" = "bridge" := by
    decide
  have hl : localHandle env activeInstances inst
      { subject := "main:initializeCast", data := .initializeCast appId }
      = ({ inst with appId := some appId },
         env.devices.map (fun receiverDevice =>
           RouterEffect.postMessage inst.contentPort
             { subject := "cast:receiverDeviceUp"
               data := .receiverDevice receiverDevice })) := by
    simp [localHandle]
  constructor
  · simp [handleContentMessage, hl, hdest]
  · simp [handleContentMessage, hl, hdest]

/-- Claim C6: when the selection workflow answers a `main:selectReceiver`
request with action Cast and a media type other than App, the router
sends `cast:selectReceiver/cancelled` to the requesting sender channel
and then runs the sender-activation step for the new selection; for
media type Tab that activation is the two content injections, and no
`cast:launchApp` message is sent on any port. -/
theorem selectReceiver_nonApp_switches_sender (env : RouterEnv)
    (activeInstances : List CastInstance) (inst : CastInstance)
    (sessionRequest : String) (tabId frameId : Nat)
    (selection : ReceiverSelection)
    (htab : inst.contentTabId = some tabId)
    (hframe : inst.contentFrameId = some frameId)
    (hsel : env.getSelection = .ok (some selection))
    (haction : selection.actionType = .Cast)
    (hmedia : selection.mediaType ≠ .App) :
    (handleContentMessage env activeInstances inst
        { subject := "main:selectReceiver"
          data := .selectReceiver sessionRequest }).2
      = RouterEffect.postMessage inst.contentPort
            { subject := "cast:selectReceiver/cancelled", data := .empty }
          :: loadSender activeInstances tabId (some frameId) (some selection)
    ∧ (selection.mediaType = .Tab →
        loadSender activeInstances tabId (some frameId) (some selection)
          = [RouterEffect.executeScriptCode tabId (some frameId) .Tab
               selection.receiverDevice,
             RouterEffect.executeScriptFile tabId (some frameId)
               "cast/senders/mirroring.js"])
    ∧ (∀ portId m, RouterEffect.postMessage portId m
          ∈ (handleContentMessage env activeInstances inst
              { subject := "main:selectReceiver"
                data := .selectReceiver sessionRequest }).2 →
        m.subject ≠ "cast:launchApp") := by
  have hns : ¬(("main:selectReceiver" : String) = "main:initializeCast") := by
    decide
  have hdest : ¬subjectDestination "main:selectReceiver" = "bridge" := by
    decide
  have hl : localHandle env activeInstances inst
      { subject := "main:selectReceiver"
        data := .selectReceiver sessionRequest }
      = (inst,
         RouterEffect.postMessage inst.contentPort
             { subject := "cast:selectReceiver/cancelled", data := .empty }
           :: loadSender activeInstances tabId (some frameId)
                (some selection)) := by
    simp only [localHandle]
    rw [htab, hframe, hsel]
    simp [haction, hmedia]
  have hfx : (handleContentMessage env activeInstances inst
      { subject := "main:selectReceiver"
        data := .selectReceiver sessionRequest }).2
      = RouterEffect.postMessage inst.contentPort
            { subject := "cast:selectReceiver/cancelled", data := .empty }
          :: loadSender activeInstances tabId (some frameId)
               (some selection) := by
    simp [handleContentMessage, hl, hdest]
  refine ⟨hfx, ?_, ?_⟩
  · intro hTab
    simp [loadSender, haction, hTab]
  · intro portId m hm
    rw [hfx] at hm
    rcases List.mem_cons.mp hm with h | h
    · injection h with hport hmsg
      rw [hmsg]
      decide
    · cases hmt : selection.mediaType with
      | App => exact absurd hmt hmedia
      | Tab => simp [loadSender, haction, hmt] at h
      | Screen => simp [loadSender, haction, hmt] at h
      | File => simp [loadSender, haction, hmt] at h

/-- Witness for C6: the demo environment's workflow returns the Cast/Tab
selection, the requesting instance gets the cancelled notification, and
the activation is the Tab injection pair. -/
theorem selectReceiver_nonApp_switches_sender_witness :
    (handleContentMessage demoEnv [] demoInstanceFrame5
        { subject := "main:selectReceiver"
          data := .selectReceiver "req" }).2
      = RouterEffect.postMessage demoInstanceFrame5.contentPort
            { subject := "cast:selectReceiver/cancelled", data := .empty }
          :: loadSender [] 1 (some 5) (some demoTabSelection)
    ∧ loadSender [] 1 (some 5) (some demoTabSelection)
      = [RouterEffect.executeScriptCode 1 (some 5) .Tab
           demoTabSelection.receiverDevice,
         RouterEffect.executeScriptFile 1 (some 5)
           "cast/senders/mirroring.js"] :=
  ⟨(selectReceiver_nonApp_switches_sender demoEnv [] demoInstanceFrame5
      "req" 1 5 demoTabSelection (by decide) (by decide) (by decide)
      (by decide) (by decide)).1,
   (selectReceiver_nonApp_switches_sender demoEnv [] demoInstanceFrame5
      "req" 1 5 demoTabSelection (by decide) (by decide) (by decide)
      (by decide) (by decide)).2.1 (by decide)⟩

theorem getInstance_some_spec {activeInstances : List CastInstance}
    {tabId : Nat} {frameId : Option Nat} {inst : CastInstance}
    (h : getInstance activeInstances tabId frameId = some inst) :
    inst ∈ activeInstances ∧ inst.contentTabId = some tabId
    ∧ (frameIdTruthy frameId = true → inst.contentFrameId = frameId) := by
  induction activeInstances with
  | nil => simp [getInstance] at h
  | cons hd tl ih =>
    simp only [getInstance] at h
    by_cases h1 : hd.contentTabId = some tabId
    · rw [if_pos h1] at h
      by_cases h2 : frameIdTruthy frameId = true ∧ hd.contentFrameId ≠ frameId
      · rw [if_pos h2] at h
        obtain ⟨hm, ht, hf⟩ := ih h
        exact ⟨List.mem_cons_of_mem _ hm, ht, hf⟩
      · rw [if_neg h2] at h
        have hh : hd = inst := Option.some.inj h
        subst hh
        refine ⟨List.mem_cons_self hd tl, h1, ?_⟩
        intro htr
        by_contra hne
        exact h2 ⟨htr, hne⟩
    · rw [if_neg h1] at h
      obtain ⟨hm, ht, hf⟩ := ih h
      exact ⟨List.mem_cons_of_mem _ hm, ht, hf⟩

theorem getInstance_none_spec {activeInstances : List CastInstance}
    {tabId : Nat} {frameId : Option Nat}
    (h : getInstance activeInstances tabId frameId = none) :
    ∀ inst ∈ activeInstances,
      ¬(inst.contentTabId = some tabId
        ∧ (frameIdTruthy frameId = true → inst.contentFrameId = frameId)) := by
  induction activeInstances with
  | nil => simp
  | cons hd tl ih =>
    simp only [getInstance] at h
    by_cases h1 : hd.contentTabId = some tabId
    · rw [if_pos h1] at h
      by_cases h2 : frameIdTruthy frameId = true ∧ hd.contentFrameId ≠ frameId
      · rw [if_pos h2] at h
        intro inst hmem
        rcases List.mem_cons.mp hmem with rfl | hm
        · rintro ⟨-, hfr⟩
          exact h2.2 (hfr h2.1)
        · exact ih h inst hm
      · rw [if_neg h2] at h
        cases h
    · rw [if_neg h1] at h
      intro inst hmem
      rcases List.mem_cons.mp hmem with rfl | hm
      · rintro ⟨ht, -⟩
        exact h1 ht
      · exact ih h inst hm

/-- Claim C7 counterexample: with one live instance recorded at
(tab 1, frame 5) and a Cast/App selection targeted at (tab 1, frame 0),
no live instance's recorded pair equals the given pair, yet `loadSender`
raises no fatal error and instead sends `cast:launchApp` to the frame-5
instance — the JS-falsy frame id `0` makes `getInstance` skip the frame
comparison. -/
theorem loadSender_app_path_counterexample :
    loadSender [demoInstanceFrame5] 1 (some 0) (some demoAppSelection)
      = [RouterEffect.postMessage demoInstanceFrame5.contentPort
          { subject := "cast:launchApp"
            data := .receiverDevice demoAppSelection.receiverDevice }]
    ∧ RouterEffect.fatalError
        ∉ loadSender [demoInstanceFrame5] 1 (some 0) (some demoAppSelection)
    ∧ ∀ inst ∈ [demoInstanceFrame5],
        ¬(inst.contentTabId = some 1 ∧ inst.contentFrameId = some 0) := by
  decide

/-- Claim C7 (amended): `loadSender` does nothing when the selection is
absent or its action type is not Cast; on Cast with media type App it
locates via `getInstance` the first live instance whose tab id matches
and whose frame id is compared only when the given frame id is present
and nonzero (a JS-falsy frame id skips the frame comparison), raises a
fatal error when no instance so matches, and otherwise sends that
instance a `cast:launchApp` message carrying the chosen receiver
device. -/
theorem loadSender_guard_and_app_path (activeInstances : List CastInstance)
    (tabId : Nat) (frameId : Option Nat) (selection : ReceiverSelection) :
    loadSender activeInstances tabId frameId none = []
    ∧ (selection.actionType ≠ .Cast →
        loadSender activeInstances tabId frameId (some selection) = [])
    ∧ (selection.actionType = .Cast → selection.mediaType = .App →
        (getInstance activeInstances tabId frameId = none →
          loadSender activeInstances tabId frameId (some selection)
            = [RouterEffect.fatalError])
        ∧ (∀ inst, getInstance activeInstances tabId frameId = some inst →
            loadSender activeInstances tabId frameId (some selection)
              = [RouterEffect.postMessage inst.contentPort
                  { subject := "cast:launchApp"
                    data := .receiverDevice selection.receiverDevice }]))
    ∧ (∀ inst, getInstance activeInstances tabId frameId = some inst →
        inst ∈ activeInstances ∧ inst.contentTabId = some tabId
        ∧ (frameIdTruthy frameId = true → inst.contentFrameId = frameId))
    ∧ (getInstance activeInstances tabId frameId = none →
        ∀ inst ∈ activeInstances,
          ¬(inst.contentTabId = some tabId
            ∧ (frameIdTruthy frameId = true
                → inst.contentFrameId = frameId))) := by
  refine ⟨rfl, ?_, ?_, ?_, ?_⟩
  · intro h
    simp [loadSender, h]
  · intro ha hm
    constructor
    · intro hg
      simp [loadSender, ha, hm, hg]
    · intro inst hg
      simp [loadSender, ha, hm, hg]
  · intro inst hg
    exact getInstance_some_spec hg
  · intro hg
    exact getInstance_none_spec hg

/-- Witness for C7 (amended): a matching (tab 1, frame 5) lookup sends
`cast:launchApp` to that instance. -/
theorem loadSender_guard_and_app_path_witness :
    loadSender [demoInstanceFrame5] 1 (some 5) (some demoAppSelection)
      = [RouterEffect.postMessage demoInstanceFrame5.contentPort
          { subject := "cast:launchApp"
            data := .receiverDevice demoAppSelection.receiverDevice }] :=
  ((loadSender_guard_and_app_path [demoInstanceFrame5] 1 (some 5)
      demoAppSelection).2.2.1 (by decide) (by decide)).2
    demoInstanceFrame5 (by decide)

end castManager
